import Mathlib

/-!
Verification development for the Selectron session-lifecycle core.

This file gives a shallow embedding of the session registry
(`src/selectron/registry.py`), the data model (`src/selectron/models.py`),
the discovery / port-conflict handler (`src/selectron/discovery.py`),
the process monitor (`src/selectron/monitor.py`) and the driver manager
(`src/selectron/driver.py`), and proves the spec's testable properties
about them.

Python dictionaries are modelled as insertion-ordered association lists
with unique keys (assignment replaces in place, otherwise appends; `pop`
removes the entry).  Exceptions are modelled with `Except` / explicit
result values, and the points where the original code performs I/O
(persistence, port probing, subprocess spawning and signalling) are
parameters of the embedded functions.
-/

namespace Selectron

/-! ## Association-list model of Python dict -/

section Dict

variable {α : Type} {β : Type} [DecidableEq α]

/-- Lookup, modelling `d.get(k)` / `d[k]` on an insertion-ordered dict. -/
def alookup : List (α × β) → α → Option β
  | [], _ => none
  | (k, v) :: t, a => if k = a then some v else alookup t a

/-- Assignment `d[k] = v`: replace in place if the key is present, else append. -/
def dictSet (l : List (α × β)) (k : α) (v : β) : List (α × β) :=
  if (alookup l k).isSome then
    l.map (fun p => if p.1 = k then (k, v) else p)
  else
    l ++ [(k, v)]

/-- Removal `d.pop(k, None)`: the popped value (if any) and the remaining entries. -/
def dictPop : List (α × β) → α → Option β × List (α × β)
  | [], _ => (none, [])
  | (k, v) :: t, a =>
    if k = a then (some v, t)
    else
      let r := dictPop t a
      (r.1, (k, v) :: r.2)

/-- Keys of an association list, in insertion order. -/
def keysOf (l : List (α × β)) : List α := l.map Prod.fst

end Dict

/-! ## Data model (`src/selectron/models.py`) -/

/-- Enum `SessionOrigin`: how the session was discovered or created. -/
inductive SessionOrigin
  | OURS
  | EXTERNAL
  deriving DecidableEq

/-- Value string of the Python `SessionOrigin` enum member. -/
def SessionOrigin.value : SessionOrigin → String
  | .OURS => "ours"
  | .EXTERNAL => "external"

/-- Enum construction `SessionOrigin(v)` from the value string; raises
`ValueError` (modelled as `none`) on an unknown value. -/
def SessionOrigin.ofValue (v : String) : Option SessionOrigin :=
  if v = "ours" then some .OURS
  else if v = "external" then some .EXTERNAL
  else none

/-- Enum `SessionStatus`: current status of a debugging session. -/
inductive SessionStatus
  | RUNNING
  | TERMINATED
  | DETACHED
  | UNKNOWN
  deriving DecidableEq

/-- Value string of the Python `SessionStatus` enum member. -/
def SessionStatus.value : SessionStatus → String
  | .RUNNING => "running"
  | .TERMINATED => "terminated"
  | .DETACHED => "detached"
  | .UNKNOWN => "unknown"

/-- Enum construction `SessionStatus(v)` from the value string; raises
`ValueError` (modelled as `none`) on an unknown value. -/
def SessionStatus.ofValue (v : String) : Option SessionStatus :=
  if v = "running" then some .RUNNING
  else if v = "terminated" then some .TERMINATED
  else if v = "detached" then some .DETACHED
  else if v = "unknown" then some .UNKNOWN
  else none

/-- Result of Python `datetime.isoformat()`.  `datetime.fromisoformat` is an
exact inverse of `datetime.isoformat` (a Python library guarantee the code
relies on), so the ISO string is modelled by the instant it denotes
(itself modelled as a `Nat` timestamp). -/
structure IsoString where
  denotes : Nat
  deriving DecidableEq

/-- Model of `datetime.isoformat()`. -/
def isoformat (d : Nat) : IsoString := ⟨d⟩

/-- Model of `datetime.fromisoformat(s)` on a well-formed ISO string. -/
def fromisoformat (s : IsoString) : Nat := s.denotes

/-- Dataclass `Session`: an active remote debugging session (`models.py`).
Fields of type `datetime` are modelled as `Nat` timestamps, `Path` fields by
their (normalised) string form, and the open `metadata` map as a
string-keyed association list. -/
structure Session where
  session_id : String
  port : Nat
  app_name : String
  pid : Option Nat := none
  started_at : Nat := 0
  started_by : String := "selectron"
  origin : SessionOrigin := .OURS
  status : SessionStatus := .RUNNING
  app_bundle_path : Option String := none
  chrome_version : Option String := none
  metadata : List (String × String) := []
  deriving DecidableEq

/-- Dictionary produced by `Session.to_dict` (all keys present; `origin` and
`status` carry the enum value strings; `started_at` carries the ISO string). -/
structure SessionDict where
  session_id : String
  port : Nat
  app_name : String
  pid : Option Nat
  started_at : IsoString
  started_by : String
  origin : String
  status : String
  app_bundle_path : Option String
  chrome_version : Option String
  metadata : List (String × String)
  deriving DecidableEq

/-- Serialization `Session.to_dict`.  In
`str(self.app_bundle_path) if self.app_bundle_path else None` a `Path`
object is always truthy, so the condition is just presence; `str` of a
path is its string form (never empty, since `Path("")` normalises to
`Path(".")`). -/
def Session.to_dict (s : Session) : SessionDict :=
  { session_id := s.session_id
    port := s.port
    app_name := s.app_name
    pid := s.pid
    started_at := isoformat s.started_at
    started_by := s.started_by
    origin := s.origin.value
    status := s.status.value
    app_bundle_path := s.app_bundle_path
    chrome_version := s.chrome_version
    metadata := s.metadata }

/-- Deserialization `Session.from_dict`.  A `none` result models an
exception escaping (`ValueError` from enum construction).  The
`app_bundle_path` guard is Python truthiness on the string value, so an
empty string is treated like `None`. -/
def Session.from_dict (d : SessionDict) : Option Session := do
  let origin ← SessionOrigin.ofValue d.origin
  let status ← SessionStatus.ofValue d.status
  some
    { session_id := d.session_id
      port := d.port
      app_name := d.app_name
      pid := d.pid
      started_at := fromisoformat d.started_at
      started_by := d.started_by
      origin := origin
      status := status
      app_bundle_path :=
        match d.app_bundle_path with
        | some p => if p = "" then none else some p
        | none => none
      chrome_version := d.chrome_version
      metadata := d.metadata }

/-! ## Session registry (`src/selectron/registry.py`)

The registry holds `_sessions : session_id → Session` and
`_port_index : port → session_id`, both Python dicts, modelled as
association lists.  `_persist_to_disk` degrades to in-memory-only
operation on I/O failure, so the in-memory transition functions below are
total; the persisted payload is the pure projection `persistedSessions`. -/

/-- In-memory state of `SessionRegistry`. -/
structure Registry where
  sessions : List (String × Session)
  portIndex : List (Nat × String)
  deriving DecidableEq

/-- Fresh registry with no persisted file. -/
def Registry.empty : Registry := { sessions := [], portIndex := [] }

/-- Payload of `PortConflictError(port, existing)`. -/
structure PortConflictPayload where
  port : Nat
  existing : Option Session
  deriving DecidableEq

/-- Method `SessionRegistry.register`: raises `PortConflictError` when the
port is already in the port index; otherwise inserts the session, updates
the port index and persists.  The raise happens before any mutation, so
the error case leaves the state untouched. -/
def Registry.register (r : Registry) (s : Session) : Except PortConflictPayload Registry :=
  match alookup r.portIndex s.port with
  | some existing_id =>
    .error { port := s.port, existing := alookup r.sessions existing_id }
  | none =>
    .ok
      { sessions := dictSet r.sessions s.session_id s
        portIndex := dictSet r.portIndex s.port s.session_id }

/-- Registry state after a `register` call, whether or not it raised
(`PortConflictError` propagates before any mutation). -/
def Registry.registerState (r : Registry) (s : Session) : Registry :=
  match r.register s with
  | .ok r' => r'
  | .error _ => r

/-- Method `SessionRegistry.unregister`: pop the session; if present, also
pop its port from the port index and persist.  Returns the removed
session. -/
def Registry.unregister (r : Registry) (session_id : String) : Option Session × Registry :=
  match dictPop r.sessions session_id with
  | (some s, sessions') =>
    (some s, { sessions := sessions', portIndex := (dictPop r.portIndex s.port).2 })
  | (none, _) => (none, r)

/-- Method `SessionRegistry.update_status`: if the session exists, mutate
its status in place; a `TERMINATED` status additionally unregisters the
session.  Returns whether the session was found. -/
def Registry.updateStatus (r : Registry) (session_id : String) (status : SessionStatus) :
    Bool × Registry :=
  match alookup r.sessions session_id with
  | some s =>
    let s' := { s with status := status }
    let r' := { r with sessions := dictSet r.sessions session_id s' }
    if status = SessionStatus.TERMINATED then
      (true, (r'.unregister session_id).2)
    else
      (true, r')
  | none => (false, r)

/-- Method `SessionRegistry.get_by_id`. -/
def Registry.getById (r : Registry) (session_id : String) : Option Session :=
  alookup r.sessions session_id

/-- Method `SessionRegistry.get_by_port`. -/
def Registry.getByPort (r : Registry) (port : Nat) : Option Session :=
  match alookup r.portIndex port with
  | some session_id => alookup r.sessions session_id
  | none => none

/-- Loop body of `SessionRegistry.verify_sessions`: for an entry of the
snapshot whose status is `UNKNOWN`, probe the port; mark `RUNNING` if in
use, else mark `TERMINATED` and unregister; record the resulting status.
Entries with any other status are untouched. -/
def verifyStep (portInUse : Nat → Bool)
    (acc : List (String × SessionStatus) × Registry) (entry : String × Session) :
    List (String × SessionStatus) × Registry :=
  let results := acc.1
  let reg := acc.2
  if entry.2.status = SessionStatus.UNKNOWN then
    if portInUse entry.2.port then
      let s' := { entry.2 with status := SessionStatus.RUNNING }
      (results ++ [(entry.1, SessionStatus.RUNNING)],
       { reg with sessions := dictSet reg.sessions entry.1 s' })
    else
      let s' := { entry.2 with status := SessionStatus.TERMINATED }
      let reg' := { reg with sessions := dictSet reg.sessions entry.1 s' }
      (results ++ [(entry.1, SessionStatus.TERMINATED)], (reg'.unregister entry.1).2)
  else
    acc

/-- Method `SessionRegistry.verify_sessions`: iterate over a snapshot
`list(self._sessions.items())`, reconciling every `UNKNOWN` session with
the live port state (`is_port_in_use` is the `portInUse` oracle).
Returns the map of verified session ids with their resulting status. -/
def Registry.verifySessions (r : Registry) (portInUse : Nat → Bool) :
    List (String × SessionStatus) × Registry :=
  r.sessions.foldl (verifyStep portInUse) ([], r)

/-- Payload written by `_persist_to_disk` under the `"sessions"` key. -/
def persistedSessions (r : Registry) : List SessionDict :=
  r.sessions.map (fun p => p.2.to_dict)

/-- Loop body of `SessionRegistry._load_from_disk`: deserialize one
persisted dict (a corrupt entry is logged and skipped), mark the loaded
session `UNKNOWN` until verified, and insert it into both indices. -/
def loadStep (reg : Registry) (d : SessionDict) : Registry :=
  match Session.from_dict d with
  | some session =>
    let session' := { session with status := SessionStatus.UNKNOWN }
    { sessions := dictSet reg.sessions session'.session_id session'
      portIndex := dictSet reg.portIndex session'.port session'.session_id }
  | none => reg

/-- Method `SessionRegistry._load_from_disk` on a freshly constructed
registry. -/
def loadFromDisk (dicts : List SessionDict) : Registry :=
  dicts.foldl loadStep Registry.empty

/-- One registry operation, for stating reachability of registry states
under arbitrary `register` / `unregister` sequences. -/
inductive RegOp
  | reg (s : Session)
  | unreg (session_id : String)

/-- Apply one operation; a failing `register` raises past the caller and
leaves the state as it was. -/
def Registry.applyOp (r : Registry) : RegOp → Registry
  | .reg s => r.registerState s
  | .unreg session_id => (r.unregister session_id).2

/-- Apply a sequence of operations starting from `r`. -/
def Registry.applyOps (r : Registry) (ops : List RegOp) : Registry :=
  ops.foldl Registry.applyOp r

/-- Registry states reachable from the empty registry by `register` /
`unregister` sequences. -/
def Registry.Reachable (r : Registry) : Prop :=
  ∃ ops : List RegOp, Registry.empty.applyOps ops = r

/-- Structural well-formedness: both dicts have unique keys (automatic for
Python dicts). -/
def Registry.WF (r : Registry) : Prop :=
  (keysOf r.sessions).Nodup ∧ (keysOf r.portIndex).Nodup

/-- Port-direction invariant: every registered session's port is mapped to
that session's id by the port index.  (The converse can fail: the index
may retain stale entries for re-registered or removed sessions.) -/
def Registry.PortInv (r : Registry) : Prop :=
  ∀ session_id s, alookup r.sessions session_id = some s →
    alookup r.portIndex s.port = some session_id

/-- Combined invariant carried by every reachable registry state. -/
def Registry.Inv (r : Registry) : Prop := r.WF ∧ r.PortInv

/-! ## Discovery and port-conflict handling (`src/selectron/discovery.py`)

Network probing (`is_port_in_use`, the DevTools HTTP probe) is I/O, so
`check_port`'s three information sources are parameters: the registry
lookup result, the live occupancy bit, and the single-port discovery
result. -/

/-- Action constant `CONFLICT_ACTION_ADD`. -/
def CONFLICT_ACTION_ADD : String := "add"

/-- Action constant `CONFLICT_ACTION_IGNORE`. -/
def CONFLICT_ACTION_IGNORE : String := "ignore"

/-- Action constant `CONFLICT_ACTION_KILL`. -/
def CONFLICT_ACTION_KILL : String := "kill"

/-- Action constant `CONFLICT_ACTION_CANCEL`. -/
def CONFLICT_ACTION_CANCEL : String := "cancel"

/-- Method `PortConflictHandler.check_port`: registry first, then live
occupancy, then a single-port discovery probe. -/
def checkPort (registryByPort : Option Session) (portOccupied : Bool)
    (discoveryResult : Option Session) : Bool × Option Session :=
  match registryByPort with
  | some existing => (false, some existing)
  | none =>
    if portOccupied then
      match discoveryResult with
      | some session => (false, some session)
      | none => (false, none)
    else
      (true, none)

/-- Method `PortConflictHandler.check_and_prompt`: dispatch on the
callback's decision; an unknown action degrades to `cancel`; with no
callback the conflict is only reported. -/
def checkAndPrompt (checkResult : Bool × Option Session)
    (promptCallback : Option (Nat → Option Session → String)) (port : Nat) :
    String × Option Session :=
  let is_available := checkResult.1
  let existing := checkResult.2
  if is_available then ("available", none)
  else
    match promptCallback with
    | some cb =>
      let action := cb port existing
      if action = CONFLICT_ACTION_ADD then ("add", existing)
      else if action = CONFLICT_ACTION_IGNORE then ("ignore", existing)
      else if action = CONFLICT_ACTION_KILL then ("kill", existing)
      else if action = CONFLICT_ACTION_CANCEL then ("cancel", existing)
      else ("cancel", existing)
    | none => ("conflict", existing)

/-! ## Process monitor (`src/selectron/monitor.py`)

Only the tracked-handle map and `kill_session` are needed by the claims.
The OS responses to `proc.terminate()`, `proc.wait(timeout)` and
`proc.kill()` are oracles (`SigBehavior`): each call either succeeds,
raises `OSError`, or (for `wait`) raises `TimeoutExpired`. -/

/-- A `subprocess.Popen` handle. -/
structure ProcHandle where
  pid : Nat
  deriving DecidableEq

/-- Tracked-process state of `ProcessMonitor` (`_processes`). -/
structure PMonitor where
  processes : List (String × ProcHandle)
  deriving DecidableEq

/-- Outcome of one `proc.wait(...)` call. -/
inductive WaitRes
  | finished (returncode : Int)
  | timedOut
  | osErr (msg : String)
  deriving DecidableEq

/-- OS behaviour oracle for one `kill_session` call: the outcome of each
signalling step, in program order.  A `some msg` in `terminateRes` /
`killRes` is an `OSError` raised by that call. -/
structure SigBehavior where
  terminateRes : Option String
  waitRes : WaitRes
  killRes : Option String
  waitForceRes : WaitRes
  deriving DecidableEq

/-- Result of `kill_session`: a normal return, or an uncaught
`TimeoutExpired` from the post-`kill()` wait (only `OSError` is caught). -/
inductive KillResult
  | returned (value : Bool)
  | raisedTimeout
  deriving DecidableEq

/-- Success tail of `kill_session`: remove from tracking, then set the
registry status to `TERMINATED`, then return `True`. -/
def killSessionSuccess (m : PMonitor) (reg : Registry) (session_id : String) :
    KillResult × PMonitor × Registry :=
  let m' : PMonitor := { processes := (dictPop m.processes session_id).2 }
  let reg' := (reg.updateStatus session_id SessionStatus.TERMINATED).2
  (KillResult.returned true, m', reg')

/-- Method `ProcessMonitor.kill_session`: graceful terminate, bounded wait,
force kill on timeout; `OSError` from any signalling step is caught and
turned into a `False` return with no state change; a second timeout
propagates `TimeoutExpired` (not caught by `except OSError`). -/
def PMonitor.killSession (m : PMonitor) (reg : Registry) (session_id : String)
    (beh : SigBehavior) : KillResult × PMonitor × Registry :=
  match alookup m.processes session_id with
  | none => (KillResult.returned false, m, reg)
  | some _ =>
    match beh.terminateRes with
    | some _ => (KillResult.returned false, m, reg)
    | none =>
      match beh.waitRes with
      | .finished _ => killSessionSuccess m reg session_id
      | .osErr _ => (KillResult.returned false, m, reg)
      | .timedOut =>
        match beh.killRes with
        | some _ => (KillResult.returned false, m, reg)
        | none =>
          match beh.waitForceRes with
          | .finished _ => killSessionSuccess m reg session_id
          | .osErr _ => (KillResult.returned false, m, reg)
          | .timedOut => (KillResult.raisedTimeout, m, reg)

/-! ## Driver manager (`src/selectron/driver.py`) -/

/-- Predicate for the regex class `\s` on the characters Python's `str`
output of `strings` can contain (ASCII whitespace). -/
def pyIsSpace (c : Char) : Bool :=
  c = ' ' || c = '\t' || c = '\n' || c = '\r' || c = '\x0b' || c = '\x0c'

/-- Longest digit run at the head of the input, with the rest. -/
def digitSpan : List Char → List Char × List Char
  | [] => ([], [])
  | c :: t =>
    if c.isDigit then
      let r := digitSpan t
      (c :: r.1, r.2)
    else
      ([], c :: t)

/-- Regex atom `\d+`: fails on an empty digit run. -/
def digits1 (cs : List Char) : Option (List Char × List Char) :=
  match digitSpan cs with
  | ([], _) => none
  | (ds, rest) => some (ds, rest)

/-- Longest whitespace run at the head of the input, with the rest. -/
def spaceSpan : List Char → List Char × List Char
  | [] => ([], [])
  | c :: t =>
    if pyIsSpace c then
      let r := spaceSpan t
      (c :: r.1, r.2)
    else
      ([], c :: t)

/-- Regex atom `\s+`: fails on an empty whitespace run. -/
def spaces1 (cs : List Char) : Option (List Char × List Char) :=
  match spaceSpan cs with
  | ([], _) => none
  | (ws, rest) => some (ws, rest)

/-- Match a literal character sequence at the head of the input, returning
the rest. -/
def dropLit : List Char → List Char → Option (List Char)
  | [], cs => some cs
  | _ :: _, [] => none
  | l :: ls, c :: cs => if c = l then dropLit ls cs else none

/-- Match the pattern `Chrome/(\d+\.\d+\.\d+\.\d+)\s+Electron/` anchored at
the head of the input, returning capture group 1.  Maximal-munch `\d+` /
`\s+` agrees with the regex here because each repetition is followed by a
character it cannot match (`.`, whitespace, `E`). -/
def matchVersionAt (cs : List Char) : Option String := do
  let cs1 ← dropLit (String.data "Chrome/") cs
  let p1 ← digits1 cs1
  let cs2 ← dropLit (String.data ".") p1.2
  let p2 ← digits1 cs2
  let cs3 ← dropLit (String.data ".") p2.2
  let p3 ← digits1 cs3
  let cs4 ← dropLit (String.data ".") p3.2
  let p4 ← digits1 cs4
  let p5 ← spaces1 p4.2
  let _ ← dropLit (String.data "Electron/") p5.2
  some (String.mk (p1.1 ++ '.' :: p2.1 ++ '.' :: p3.1 ++ '.' :: p4.1))

/-- Leftmost search `re.search(r'Chrome/(\d+\.\d+\.\d+\.\d+)\s+Electron/', out)`:
try each start position left to right. -/
def searchChromeVersion : List Char → Option String
  | [] => none
  | c :: rest =>
    match matchVersionAt (c :: rest) with
    | some v => some v
    | none => searchChromeVersion rest

/-- Failure reasons of `get_chrome_version` (payload of `ChromeVersionError`). -/
inductive ChromeVersionReason
  | frameworkNotFound
  | timeoutReadingBinary
  | noPatternMatch
  deriving DecidableEq

/-- Uncached body of `ElectronDriverManager.get_chrome_version`:
check the framework binary exists, run `strings` (its stdout or a timeout
is the `scanResult` oracle), and search the output for the version
pattern. -/
def getChromeVersionFresh (frameworkExists : Bool) (scanResult : Except Unit String) :
    Except ChromeVersionReason String :=
  if frameworkExists = false then
    .error .frameworkNotFound
  else
    match scanResult with
    | .error _ => .error .timeoutReadingBinary
    | .ok out =>
      match searchChromeVersion out.data with
      | some v => .ok v
      | none => .error .noPatternMatch

/-- Method `ElectronDriverManager.get_chrome_version`, including the
instance cache (`if self._chrome_version:` is Python truthiness, so an
empty cached string falls through to recomputation). -/
def getChromeVersion (cachedChromeVersion : Option String) (frameworkExists : Bool)
    (scanResult : Except Unit String) : Except ChromeVersionReason String :=
  match cachedChromeVersion with
  | some v =>
    if v = "" then getChromeVersionFresh frameworkExists scanResult else .ok v
  | none => getChromeVersionFresh frameworkExists scanResult

/-- Errors that can propagate out of `start_app_with_debugging`. -/
inductive StartError
  | sessionStart (app_name : String) (port : Nat) (msg : String)
  | portConflict (payload : PortConflictPayload)
  | timeoutExpired
  deriving DecidableEq

instance {ε α : Type} [DecidableEq ε] [DecidableEq α] : DecidableEq (Except ε α) := fun x y =>
  match x, y with
  | .ok a, .ok b =>
    if h : a = b then .isTrue (by rw [h]) else .isFalse (fun hc => h (by injection hc))
  | .error a, .error b =>
    if h : a = b then .isTrue (by rw [h]) else .isFalse (fun hc => h (by injection hc))
  | .ok _, .error _ => .isFalse (fun hc => Except.noConfusion hc)
  | .error _, .ok _ => .isFalse (fun hc => Except.noConfusion hc)

/-- Full result of a `start_app_with_debugging` call: the returned value
or propagated exception, the final registry and monitor state, and an
instrumentation bit recording whether `ProcessMonitor.kill_session` was
invoked on this path. -/
structure StartResult where
  outcome : Except StartError (Option Session)
  registry : Registry
  monitor : PMonitor
  killInvoked : Bool
  deriving DecidableEq

/-- Session record built by `start_app_with_debugging` after a successful
spawn: fresh uuid id, the chosen debug port, the spawned pid, origin
`OURS`, status `RUNNING`, and the cached chrome version (if any). -/
def builtSession (app_name : String) (debugging_port : Nat) (proc : ProcHandle)
    (newSessionId : String) (now : Nat) (app_bundle : String)
    (cachedChromeVersion : Option String) : Session :=
  { session_id := newSessionId
    port := debugging_port
    app_name := app_name
    pid := some proc.pid
    started_at := now
    started_by := "selectron"
    origin := SessionOrigin.OURS
    status := SessionStatus.RUNNING
    app_bundle_path := some app_bundle
    chrome_version := cachedChromeVersion
    metadata := [] }

/-- Spawn-onwards tail of `start_app_with_debugging`: spawn the process
(`spawnResult` is the `subprocess.Popen` oracle: an `OSError` message or a
handle), build the `Session(origin=OURS)` record, register it, hand the
handle to the monitor, then poll the port up to `wait_seconds`
(`portBecameInUse` says whether the port was seen open in time) — a
timeout logs a warning but still returns the session. -/
def startSpawnPhase (app_name : String) (debugging_port : Nat)
    (spawnResult : Except String ProcHandle) (reg : Registry) (m : PMonitor)
    (newSessionId : String) (now : Nat) (app_bundle : String)
    (cachedChromeVersion : Option String) (portBecameInUse : Bool)
    (killInvoked : Bool) : StartResult :=
  match spawnResult with
  | .error e =>
    { outcome := .error (.sessionStart app_name debugging_port e)
      registry := reg, monitor := m, killInvoked := killInvoked }
  | .ok proc =>
    let session : Session :=
      builtSession app_name debugging_port proc newSessionId now app_bundle
        cachedChromeVersion
    match reg.register session with
    | .error payload =>
      { outcome := .error (.portConflict payload)
        registry := reg, monitor := m, killInvoked := killInvoked }
    | .ok reg' =>
      let m' : PMonitor := { processes := dictSet m.processes session.session_id proc }
      if portBecameInUse then
        { outcome := .ok (some session), registry := reg', monitor := m'
          killInvoked := killInvoked }
      else
        { outcome := .ok (some session), registry := reg', monitor := m'
          killInvoked := killInvoked }

/-- Method `ElectronDriverManager.start_app_with_debugging` after the
optional `auto_find_port` step: run the conflict check, dispatch on the
resulting action (`KILL` is honored only for `origin == OURS`; an
external-origin session produces a refusal message and a `None` return),
then spawn / register / track / wait. -/
def startAppWithDebugging (app_name : String) (reg : Registry) (m : PMonitor)
    (debugging_port : Nat)
    (checkResult : Bool × Option Session)
    (on_conflict : Nat → Option Session → String)
    (killBehavior : SigBehavior)
    (spawnResult : Except String ProcHandle)
    (newSessionId : String) (now : Nat) (app_bundle : String)
    (cachedChromeVersion : Option String)
    (portBecameInUse : Bool) : StartResult :=
  let ae := checkAndPrompt checkResult (some on_conflict) debugging_port
  let action := ae.1
  let existing := ae.2
  if action = "available" then
    startSpawnPhase app_name debugging_port spawnResult reg m newSessionId now
      app_bundle cachedChromeVersion portBecameInUse false
  else if action = CONFLICT_ACTION_CANCEL ∨ action = "conflict" then
    { outcome := .ok none, registry := reg, monitor := m, killInvoked := false }
  else if action = CONFLICT_ACTION_KILL ∧ existing.isSome then
    match existing with
    | some ex =>
      if ex.origin = SessionOrigin.OURS then
        let kr := m.killSession reg ex.session_id killBehavior
        match kr.1 with
        | .raisedTimeout =>
          { outcome := .error .timeoutExpired, registry := kr.2.2, monitor := kr.2.1
            killInvoked := true }
        | .returned _ =>
          startSpawnPhase app_name debugging_port spawnResult kr.2.2 kr.2.1
            newSessionId now app_bundle cachedChromeVersion portBecameInUse true
      else
        { outcome := .ok none, registry := reg, monitor := m, killInvoked := false }
    | none =>
      startSpawnPhase app_name debugging_port spawnResult reg m newSessionId now
        app_bundle cachedChromeVersion portBecameInUse false
  else if action = CONFLICT_ACTION_IGNORE then
    { outcome := .ok existing, registry := reg, monitor := m, killInvoked := false }
  else if action = "add" then
    { outcome := .ok existing, registry := reg, monitor := m, killInvoked := false }
  else
    startSpawnPhase app_name debugging_port spawnResult reg m newSessionId now
      app_bundle cachedChromeVersion portBecameInUse false

/-! ## Spec-side characterizations and concrete inputs -/

/-- Spec-side description of the entry `verify_sessions` records in its
result map for one snapshot entry (only `UNKNOWN` sessions are verified). -/
def verifiedEntryResult (portInUse : Nat → Bool) (e : String × Session) :
    Option (String × SessionStatus) :=
  if e.2.status = SessionStatus.UNKNOWN then
    some (e.1, if portInUse e.2.port then SessionStatus.RUNNING else SessionStatus.TERMINATED)
  else none

/-- Spec-side description of what becomes of one session-map entry under
`verify_sessions`: non-`UNKNOWN` entries are unchanged, `UNKNOWN` ones
become `RUNNING` or are removed. -/
def verifiedEntrySession (portInUse : Nat → Bool) (e : String × Session) :
    Option (String × Session) :=
  if e.2.status = SessionStatus.UNKNOWN then
    if portInUse e.2.port then some (e.1, { e.2 with status := SessionStatus.RUNNING })
    else none
  else some e

/-- Concrete session used in witnesses: ours, on port 9222. -/
def sessA : Session := { session_id := "a", port := 9222, app_name := "Claude" }

/-- Concrete session colliding with `sessA` on port 9222 under a different id. -/
def sessB : Session := { session_id := "b", port := 9222, app_name := "Obsidian" }

/-- Concrete session with the id of `sessA` but a different port. -/
def sessA2 : Session := { session_id := "a", port := 9223, app_name := "Claude" }

/-- Concrete externally-discovered session on port 9222. -/
def sessExt : Session :=
  { session_id := "e", port := 9222, app_name := "Chrome 138 (port 9222)"
    pid := none, started_by := "external", origin := SessionOrigin.EXTERNAL }

/-- Registry obtained by registering `sessA` then re-registering the same
id under a different port — the sequence refuting C2's stale-free port
index and C4's different-session-only conflict condition. -/
def staleReg : Registry :=
  Registry.empty.applyOps [RegOp.reg sessA, RegOp.reg sessA2]

/-- Registry holding just `sessA`. -/
def regA : Registry := Registry.empty.applyOps [RegOp.reg sessA]

/-- Concrete session in `UNKNOWN` status (as after a reload), port 9300. -/
def sessU : Session :=
  { session_id := "u", port := 9300, app_name := "Cursor", status := SessionStatus.UNKNOWN }

/-- Concrete session in `UNKNOWN` status (as after a reload), port 9222. -/
def sessU2 : Session :=
  { session_id := "v", port := 9222, app_name := "Claude", status := SessionStatus.UNKNOWN }

/-- Concrete registry mixing `UNKNOWN` and non-`UNKNOWN` sessions, for the
`verify_sessions` witness. -/
def regVerify : Registry :=
  { sessions := [("a", { sessA with port := 9250 }), ("u", sessU), ("v", sessU2)]
    portIndex := [(9250, "a"), (9300, "u"), (9222, "v")] }

/-- Character list of the spec scenario's versioned-pair substring
`Chrome/12.3.4.5 Electron/` (the engine/runtime tag pair), spelled out so
the matcher reduces structurally with an arbitrary tail appended. -/
def versionedPairChars : List Char :=
  ['C', 'h', 'r', 'o', 'm', 'e', '/', '1', '2', '.', '3', '.', '4', '.', '5', ' ',
   'E', 'l', 'e', 'c', 't', 'r', 'o', 'n', '/']

/-! ## Lemmas about the dict model -/

section DictLemmas

variable {α : Type} {β : Type} [DecidableEq α]

theorem alookup_append (l₁ l₂ : List (α × β)) (a : α) :
    alookup (l₁ ++ l₂) a = ((alookup l₁ a).or (alookup l₂ a)) := by
  induction l₁ with
  | nil => simp [alookup]
  | cons p t ih =>
    by_cases h : p.1 = a <;> simp [alookup, h, ih]

theorem alookup_eq_none_of_not_mem_keys {l : List (α × β)} {a : α}
    (h : a ∉ keysOf l) : alookup l a = none := by
  induction l with
  | nil => rfl
  | cons p t ih =>
    simp only [keysOf, List.map_cons, List.mem_cons] at h
    push_neg at h
    simp [alookup, Ne.symm h.1, ih h.2]

theorem mem_keys_of_alookup_isSome {l : List (α × β)} {a : α}
    (h : (alookup l a).isSome) : a ∈ keysOf l := by
  by_contra hmem
  rw [alookup_eq_none_of_not_mem_keys hmem] at h
  simp at h

theorem alookup_isSome_iff_mem_keys {l : List (α × β)} {a : α} :
    (alookup l a).isSome ↔ a ∈ keysOf l := by
  constructor
  · exact mem_keys_of_alookup_isSome
  · intro hmem
    induction l with
    | nil => simp [keysOf] at hmem
    | cons p t ih =>
      simp only [keysOf, List.map_cons, List.mem_cons] at hmem
      rcases hmem with h | h
      · simp [alookup, h.symm]
      · by_cases hpa : p.1 = a <;> simp [alookup, hpa, ih h]

theorem mem_of_alookup_eq_some {l : List (α × β)} {a : α} {b : β}
    (h : alookup l a = some b) : (a, b) ∈ l := by
  induction l with
  | nil => simp [alookup] at h
  | cons p t ih =>
    cases p with
    | mk pk pv =>
      by_cases hp : pk = a
      · subst hp
        simp only [alookup, eq_self_iff_true, if_true, Option.some.injEq] at h
        subst h
        exact List.mem_cons_self _ _
      · simp only [alookup, if_neg hp] at h
        exact List.mem_cons_of_mem _ (ih h)

theorem keysOf_setMap (l : List (α × β)) (k : α) (v : β) :
    keysOf (l.map (fun p => if p.1 = k then (k, v) else p)) = keysOf l := by
  induction l with
  | nil => rfl
  | cons p t ih =>
    cases p with
    | mk pk pv =>
      show (if pk = k then (k, v) else (pk, pv)).1 :: keysOf (t.map _) = pk :: keysOf t
      rw [ih]
      by_cases hp : pk = k
      · rw [if_pos hp, hp]
      · rw [if_neg hp]

theorem alookup_setMap_self {l : List (α × β)} {k : α} (v : β)
    (h : (alookup l k).isSome) :
    alookup (l.map (fun p => if p.1 = k then (k, v) else p)) k = some v := by
  induction l with
  | nil => simp [alookup] at h
  | cons p t ih =>
    cases p with
    | mk pk pv =>
      show alookup ((if pk = k then (k, v) else (pk, pv)) :: t.map _) k = some v
      by_cases hp : pk = k
      · rw [if_pos hp]
        simp [alookup]
      · rw [if_neg hp]
        have h' : (alookup t k).isSome := by
          simpa [alookup, hp] using h
        simp [alookup, hp, ih h']

theorem alookup_setMap_ne (l : List (α × β)) (k : α) (v : β) {a : α} (hne : a ≠ k) :
    alookup (l.map (fun p => if p.1 = k then (k, v) else p)) a = alookup l a := by
  induction l with
  | nil => rfl
  | cons p t ih =>
    cases p with
    | mk pk pv =>
      show alookup ((if pk = k then (k, v) else (pk, pv)) :: t.map _) a
        = alookup ((pk, pv) :: t) a
      by_cases hp : pk = k
      · rw [if_pos hp]
        have hka : ¬(k = a) := fun hc => hne hc.symm
        have hpa : ¬(pk = a) := fun hc => hne (hp ▸ hc).symm
        simp [alookup, hka, hpa, ih]
      · rw [if_neg hp]
        by_cases hpa : pk = a <;> simp [alookup, hpa, ih]

theorem setMap_eq_of_not_mem (l : List (α × β)) (k : α) (v : β) (h : k ∉ keysOf l) :
    l.map (fun p => if p.1 = k then (k, v) else p) = l := by
  induction l with
  | nil => rfl
  | cons p t ih =>
    cases p with
    | mk pk pv =>
      simp only [keysOf, List.map_cons, List.mem_cons] at h
      push_neg at h
      have h' : k ∉ keysOf t := h.2
      show (if pk = k then (k, v) else (pk, pv)) :: t.map _ = (pk, pv) :: t
      rw [if_neg (fun hc => h.1 hc.symm), ih h']

theorem keysOf_dictSet (l : List (α × β)) (k : α) (v : β) :
    keysOf (dictSet l k v) = if (alookup l k).isSome then keysOf l else keysOf l ++ [k] := by
  unfold dictSet
  by_cases h : (alookup l k).isSome
  · simp [h, keysOf_setMap]
  · simp [h, keysOf]

theorem nodup_keys_dictSet {l : List (α × β)} (k : α) (v : β)
    (h : (keysOf l).Nodup) : (keysOf (dictSet l k v)).Nodup := by
  rw [keysOf_dictSet]
  by_cases hs : (alookup l k).isSome
  · simpa [hs] using h
  · have hk : k ∉ keysOf l := fun hmem => hs (alookup_isSome_iff_mem_keys.mpr hmem)
    simp [hs, List.nodup_append, h, hk]

theorem alookup_dictSet_self (l : List (α × β)) (k : α) (v : β) :
    alookup (dictSet l k v) k = some v := by
  unfold dictSet
  by_cases h : (alookup l k).isSome
  · simp [h, alookup_setMap_self v h]
  · rw [if_neg h]
    have hk : k ∉ keysOf l := fun hmem => h (alookup_isSome_iff_mem_keys.mpr hmem)
    rw [alookup_append, alookup_eq_none_of_not_mem_keys hk]
    simp [alookup]

theorem alookup_dictSet_ne {l : List (α × β)} (k : α) (v : β) {a : α} (hne : a ≠ k) :
    alookup (dictSet l k v) a = alookup l a := by
  unfold dictSet
  by_cases h : (alookup l k).isSome
  · simp [h, alookup_setMap_ne l k v hne]
  · rw [if_neg h, alookup_append, alookup_eq_none_of_not_mem_keys (l := [(k, v)])]
    · simp
    · simp [keysOf, hne]

theorem dictSet_eq_append_of_none {l : List (α × β)} {k : α} (v : β)
    (h : alookup l k = none) : dictSet l k v = l ++ [(k, v)] := by
  unfold dictSet
  rw [h]
  rfl

theorem dictSet_mid (l₁ l₂ : List (α × β)) (k : α) (v v' : β)
    (h₁ : k ∉ keysOf l₁) (h₂ : k ∉ keysOf l₂) :
    dictSet (l₁ ++ (k, v) :: l₂) k v' = l₁ ++ (k, v') :: l₂ := by
  have hsome : (alookup (l₁ ++ (k, v) :: l₂) k).isSome := by
    rw [alookup_append, alookup_eq_none_of_not_mem_keys h₁]
    simp [alookup]
  unfold dictSet
  rw [if_pos hsome, List.map_append]
  rw [setMap_eq_of_not_mem l₁ k v' h₁]
  have hmapcons :
      ((k, v) :: l₂).map (fun p => if p.1 = k then (k, v') else p) = (k, v') :: l₂ := by
    show (if k = k then (k, v') else (k, v)) :: l₂.map _ = (k, v') :: l₂
    rw [if_pos rfl, setMap_eq_of_not_mem l₂ k v' h₂]
  rw [hmapcons]

theorem dictPop_eq_none {l : List (α × β)} {a : α} (h : alookup l a = none) :
    dictPop l a = (none, l) := by
  induction l with
  | nil => rfl
  | cons p t ih =>
    by_cases hp : p.1 = a
    · simp [alookup, hp] at h
    · simp only [alookup, hp, if_false] at h
      cases p
      simp_all [dictPop, alookup]

theorem alookup_dictPop_self {l : List (α × β)} (hnd : (keysOf l).Nodup) (a : α) :
    alookup (dictPop l a).2 a = none := by
  induction l with
  | nil => rfl
  | cons p t ih =>
    simp only [keysOf, List.map_cons, List.nodup_cons] at hnd
    by_cases hp : p.1 = a
    · cases p with
      | mk k v =>
        simp only at hp
        subst hp
        simp only [dictPop, if_pos rfl]
        exact alookup_eq_none_of_not_mem_keys hnd.1
    · cases p with
      | mk k v =>
        simp only at hp
        simp [dictPop, hp, alookup, ih hnd.2]

theorem alookup_dictPop_ne {l : List (α × β)} (k : α) {a : α} (hne : a ≠ k) :
    alookup (dictPop l k).2 a = alookup l a := by
  induction l with
  | nil => rfl
  | cons p t ih =>
    cases p with
    | mk pk pv =>
      by_cases hp : pk = k
      · subst hp
        simp [dictPop, alookup, Ne.symm hne]
      · by_cases hpa : pk = a
        · subst hpa
          simp [dictPop, hp, alookup]
        · simp [dictPop, hp, alookup, hpa, ih]

theorem dictPop_fst {l : List (α × β)} (a : α) : (dictPop l a).1 = alookup l a := by
  induction l with
  | nil => rfl
  | cons p t ih =>
    cases p with
    | mk pk pv => by_cases hp : pk = a <;> simp [dictPop, alookup, hp, ih]

theorem dictPop_mid (l₁ l₂ : List (α × β)) (k : α) (v : β) (h₁ : k ∉ keysOf l₁) :
    dictPop (l₁ ++ (k, v) :: l₂) k = (some v, l₁ ++ l₂) := by
  induction l₁ with
  | nil => simp [dictPop]
  | cons p t ih =>
    cases p with
    | mk pk pv =>
      simp only [keysOf, List.map_cons, List.mem_cons] at h₁
      push_neg at h₁
      have hne : ¬(pk = k) := fun hc => h₁.1 hc.symm
      have h₁' : k ∉ keysOf t := h₁.2
      show dictPop ((pk, pv) :: (t ++ (k, v) :: l₂)) k = (some v, (pk, pv) :: (t ++ l₂))
      unfold dictPop
      rw [if_neg hne, ih h₁']

theorem keys_dictPop_sublist (l : List (α × β)) (a : α) :
    List.Sublist (keysOf (dictPop l a).2) (keysOf l) := by
  induction l with
  | nil => simp [dictPop, keysOf]
  | cons p t ih =>
    cases p with
    | mk pk pv =>
      by_cases hp : pk = a
      · subst hp
        simp only [dictPop, if_pos rfl, keysOf, List.map_cons]
        exact List.sublist_cons_self _ _
      · simp only [dictPop, if_neg hp, keysOf, List.map_cons]
        exact ih.cons₂ pk

theorem nodup_keys_dictPop {l : List (α × β)} (a : α)
    (h : (keysOf l).Nodup) : (keysOf (dictPop l a).2).Nodup :=
  (keys_dictPop_sublist l a).nodup h

end DictLemmas

theorem keysOf_append {α β : Type} (l₁ l₂ : List (α × β)) :
    keysOf (l₁ ++ l₂) = keysOf l₁ ++ keysOf l₂ := by
  simp [keysOf]

/-! ## Registry invariants -/

theorem unregister_eq (r : Registry) (session_id : String) (s : Session)
    (h : alookup r.sessions session_id = some s) :
    r.unregister session_id
      = (some s,
         { sessions := (dictPop r.sessions session_id).2
           portIndex := (dictPop r.portIndex s.port).2 }) := by
  unfold Registry.unregister
  cases hpop : dictPop r.sessions session_id with
  | mk popped rest =>
    have hp : popped = some s := by
      have hf := dictPop_fst (l := r.sessions) session_id
      rw [hpop] at hf
      rw [show ((popped, rest) : Option Session × List (String × Session)).1 = popped from rfl]
        at hf
      rw [hf, h]
    subst hp
    rfl

theorem unregister_eq_none (r : Registry) (session_id : String)
    (h : alookup r.sessions session_id = none) :
    r.unregister session_id = (none, r) := by
  unfold Registry.unregister
  rw [dictPop_eq_none h]

theorem inv_empty : Registry.empty.Inv := by
  refine ⟨⟨List.nodup_nil, List.nodup_nil⟩, ?_⟩
  intro session_id s h
  exact Option.noConfusion h

theorem inv_registerState {r : Registry} (h : r.Inv) (s : Session) :
    (r.registerState s).Inv := by
  unfold Registry.registerState Registry.register
  cases hidx : alookup r.portIndex s.port with
  | some existing_id => exact h
  | none =>
    show Registry.Inv
      { sessions := dictSet r.sessions s.session_id s
        portIndex := dictSet r.portIndex s.port s.session_id }
    refine ⟨⟨nodup_keys_dictSet _ _ h.1.1, nodup_keys_dictSet _ _ h.1.2⟩, ?_⟩
    intro id' s' hl
    have hl' : alookup (dictSet r.sessions s.session_id s) id' = some s' := hl
    show alookup (dictSet r.portIndex s.port s.session_id) s'.port = some id'
    by_cases hid : id' = s.session_id
    · subst hid
      rw [alookup_dictSet_self] at hl'
      injection hl' with he
      subst he
      exact alookup_dictSet_self _ _ _
    · rw [alookup_dictSet_ne _ _ hid] at hl'
      have hp := h.2 _ _ hl'
      have hports : s'.port ≠ s.port := by
        intro hc
        rw [hc, hidx] at hp
        exact Option.noConfusion hp
      rw [alookup_dictSet_ne _ _ hports]
      exact hp

theorem inv_unregister {r : Registry} (h : r.Inv) (session_id : String) :
    ((r.unregister session_id).2).Inv := by
  cases hl : alookup r.sessions session_id with
  | none =>
    rw [unregister_eq_none r session_id hl]
    exact h
  | some s =>
    rw [unregister_eq r session_id s hl]
    show Registry.Inv
      { sessions := (dictPop r.sessions session_id).2
        portIndex := (dictPop r.portIndex s.port).2 }
    refine ⟨⟨nodup_keys_dictPop _ h.1.1, nodup_keys_dictPop _ h.1.2⟩, ?_⟩
    intro id' s' hraw
    have hl' : alookup (dictPop r.sessions session_id).2 id' = some s' := hraw
    show alookup (dictPop r.portIndex s.port).2 s'.port = some id'
    have hid : id' ≠ session_id := by
      intro hc
      subst hc
      rw [alookup_dictPop_self h.1.1] at hl'
      exact Option.noConfusion hl'
    rw [alookup_dictPop_ne _ hid] at hl'
    have hp := h.2 _ _ hl'
    have hpidx := h.2 _ _ hl
    have hports : s'.port ≠ s.port := by
      intro hc
      rw [hc, hpidx] at hp
      injection hp with hp'
      exact hid hp'.symm
    rw [alookup_dictPop_ne _ hports]
    exact hp

theorem inv_applyOp {r : Registry} (h : r.Inv) (op : RegOp) : (r.applyOp op).Inv := by
  cases op with
  | reg s => exact inv_registerState h s
  | unreg session_id => exact inv_unregister h session_id

theorem inv_applyOps {r : Registry} (h : r.Inv) (ops : List RegOp) :
    (r.applyOps ops).Inv := by
  induction ops generalizing r with
  | nil => exact h
  | cons op t ih => exact ih (inv_applyOp h op)

theorem reachable_inv {r : Registry} (h : r.Reachable) : r.Inv := by
  obtain ⟨ops, rfl⟩ := h
  exact inv_applyOps inv_empty ops

/-! ## Claim C2 -/

/-- C2 counterexample: after the sequence `register {id a, port 9222}`,
`register {id a, port 9223}` (both calls succeed), the port index still
maps port 9222 to id `a`, but the session stored under `a` now holds port
9223 — so the port-index entry does not point to a session holding that
port, refuting the claim's back-reference condition. -/
theorem c2_counterexample :
    staleReg.Reachable
    ∧ alookup staleReg.portIndex 9222 = some "a"
    ∧ alookup staleReg.sessions "a" = some sessA2
    ∧ sessA2.port ≠ 9222 :=
  ⟨⟨[RegOp.reg sessA, RegOp.reg sessA2], rfl⟩, by decide, by decide, by decide⟩

/-- C2 (amended): starting from the empty registry, after every sequence
of `register` (successful or failing) and `unregister` operations, no two
distinct registered sessions share a port, and every registered session's
port is mapped to that session's id by the port index.  (The original
claim's converse — that every port-index entry points to a session present
with that port — fails because re-registering an existing session id on a
new port leaves a stale index entry; see `c2_counterexample`.) -/
theorem c2_no_two_sessions_share_port (r : Registry) (hreach : r.Reachable) :
    (∀ id1 s1 id2 s2,
        alookup r.sessions id1 = some s1 → alookup r.sessions id2 = some s2 →
        s1.port = s2.port → id1 = id2)
    ∧ (∀ session_id s, alookup r.sessions session_id = some s →
        alookup r.portIndex s.port = some session_id) := by
  have hinv := reachable_inv hreach
  constructor
  · intro id1 s1 id2 s2 h1 h2 hp
    have e1 := hinv.2 _ _ h1
    have e2 := hinv.2 _ _ h2
    rw [hp] at e1
    rw [e1] at e2
    exact Option.some.inj e2
  · exact hinv.2

theorem c2_no_two_sessions_share_port_witness :
    regA.Reachable
    ∧ ((∀ id1 s1 id2 s2,
          alookup regA.sessions id1 = some s1 → alookup regA.sessions id2 = some s2 →
          s1.port = s2.port → id1 = id2)
       ∧ (∀ session_id s, alookup regA.sessions session_id = some s →
           alookup regA.portIndex s.port = some session_id)) :=
  ⟨⟨[RegOp.reg sessA], rfl⟩,
   c2_no_two_sessions_share_port regA ⟨[RegOp.reg sessA], rfl⟩⟩

/-! ## Claim C3 -/

/-- C3: for every reachable registry state and every session whose port is
already held by another registered session (a different session id),
`register` raises `PortConflictError` and leaves the registry — session
map and port index — exactly as it was (the raise precedes all mutation). -/
theorem c3_conflict_register_unchanged (r : Registry) (hreach : r.Reachable)
    (s : Session) (other_id : String) (other : Session)
    (_hne : other_id ≠ s.session_id)
    (hmem : alookup r.sessions other_id = some other)
    (hport : other.port = s.port) :
    (∃ payload, r.register s = Except.error payload) ∧ r.registerState s = r := by
  have hinv := reachable_inv hreach
  have hidx := hinv.2 _ _ hmem
  rw [hport] at hidx
  unfold Registry.registerState Registry.register
  rw [hidx]
  exact ⟨⟨_, rfl⟩, rfl⟩

theorem c3_conflict_register_unchanged_witness :
    (regA.Reachable ∧ ("a" : String) ≠ sessB.session_id
      ∧ alookup regA.sessions "a" = some sessA ∧ sessA.port = sessB.port)
    ∧ (∃ payload, regA.register sessB = Except.error payload)
    ∧ regA.registerState sessB = regA :=
  ⟨⟨⟨[RegOp.reg sessA], rfl⟩, by decide, by decide, by decide⟩,
   c3_conflict_register_unchanged regA ⟨[RegOp.reg sessA], rfl⟩ sessB "a" sessA
     (by decide) (by decide) (by decide)⟩

/-! ## Claim C4 -/

/-- C4 counterexample: in the registry holding exactly session `a` on port
9222, the port index maps 9222 to `a` itself, yet re-registering that very
session raises `PortConflictError` — refuting the claim that registration
succeeds whenever the port is indexed to the same session. -/
theorem c4_counterexample :
    alookup regA.portIndex sessA.port = some sessA.session_id
    ∧ regA.register sessA
        = Except.error { port := 9222, existing := some sessA } := by
  exact ⟨by decide, by decide⟩

/-- C4 (amended): `register(session)` fails with `PortConflictError` if
and only if `session.port` is already present in the port index — pointing
to any session id, even the registering session's own (the check is on the
port key alone); in every other case it inserts the session, updates the
port→id index, and includes the session's serialized record in the
persisted payload. -/
theorem c4_register_contract (r : Registry) (s : Session) :
    ((∃ payload, r.register s = Except.error payload)
      ↔ (alookup r.portIndex s.port).isSome)
    ∧ (∀ r', r.register s = Except.ok r' →
        r'.getById s.session_id = some s
        ∧ alookup r'.portIndex s.port = some s.session_id
        ∧ s.to_dict ∈ persistedSessions r') := by
  constructor
  · constructor
    · rintro ⟨payload, hp⟩
      cases hidx : alookup r.portIndex s.port with
      | some i => rfl
      | none =>
        unfold Registry.register at hp
        rw [hidx] at hp
        exact Except.noConfusion hp
    · intro hsome
      obtain ⟨i, hi⟩ := Option.isSome_iff_exists.mp hsome
      refine ⟨{ port := s.port, existing := alookup r.sessions i }, ?_⟩
      unfold Registry.register
      rw [hi]
  · intro r' hok
    unfold Registry.register at hok
    cases hidx : alookup r.portIndex s.port with
    | some i =>
      rw [hidx] at hok
      exact Except.noConfusion hok
    | none =>
      rw [hidx] at hok
      injection hok with hok'
      subst hok'
      refine ⟨?_, ?_, ?_⟩
      · exact alookup_dictSet_self _ _ _
      · exact alookup_dictSet_self _ _ _
      · unfold persistedSessions
        have hm : (s.session_id, s) ∈ dictSet r.sessions s.session_id s :=
          mem_of_alookup_eq_some (alookup_dictSet_self _ _ _)
        exact List.mem_map.mpr ⟨(s.session_id, s), hm, rfl⟩

theorem c4_register_contract_witness :
    Registry.empty.register sessA = Except.ok regA
    ∧ (regA.getById "a" = some sessA
        ∧ alookup regA.portIndex 9222 = some "a"
        ∧ sessA.to_dict ∈ persistedSessions regA) :=
  ⟨by decide, (c4_register_contract Registry.empty sessA).2 regA (by decide)⟩

/-! ## Claim C5 -/

theorem updateStatus_not_found (r : Registry) (session_id : String) (status : SessionStatus)
    (h : alookup r.sessions session_id = none) :
    r.updateStatus session_id status = (false, r) := by
  unfold Registry.updateStatus
  rw [h]

theorem updateStatus_terminated_found (r : Registry) (session_id : String) (s : Session)
    (h : alookup r.sessions session_id = some s) :
    r.updateStatus session_id SessionStatus.TERMINATED
      = (true, (Registry.unregister { r with sessions := dictSet r.sessions session_id { s with status := SessionStatus.TERMINATED } } session_id).2) := by
  unfold Registry.updateStatus
  rw [h]
  rfl

/-- C5: for every registered session id, `update_status(id, TERMINATED)`
returns the found result `True` and removes the session from the
registry, and the operation is idempotent: the immediate second call
returns the not-found result `False` without error, leaves the state
unchanged, and the session is absent after each of the two calls. -/
theorem c5_terminated_idempotent (r : Registry) (hnd : (keysOf r.sessions).Nodup)
    (session_id : String) (hreg : (alookup r.sessions session_id).isSome) :
    (r.updateStatus session_id SessionStatus.TERMINATED).1 = true
    ∧ alookup (r.updateStatus session_id SessionStatus.TERMINATED).2.sessions
        session_id = none
    ∧ (r.updateStatus session_id SessionStatus.TERMINATED).2.updateStatus
        session_id SessionStatus.TERMINATED
        = (false, (r.updateStatus session_id SessionStatus.TERMINATED).2)
    ∧ alookup ((r.updateStatus session_id SessionStatus.TERMINATED).2.updateStatus
        session_id SessionStatus.TERMINATED).2.sessions session_id = none := by
  obtain ⟨s, hs⟩ := Option.isSome_iff_exists.mp hreg
  have hlook : alookup
      ({ r with sessions :=
          dictSet r.sessions session_id { s with status := SessionStatus.TERMINATED } }
        : Registry).sessions session_id
      = some { s with status := SessionStatus.TERMINATED } :=
    alookup_dictSet_self _ _ _
  have hun := unregister_eq
    ({ r with sessions :=
        dictSet r.sessions session_id { s with status := SessionStatus.TERMINATED } })
    session_id { s with status := SessionStatus.TERMINATED } hlook
  have hcall1 : r.updateStatus session_id SessionStatus.TERMINATED
      = (true,
         { sessions :=
             (dictPop (dictSet r.sessions session_id
               { s with status := SessionStatus.TERMINATED }) session_id).2,
           portIndex :=
             (dictPop r.portIndex
               ({ s with status := SessionStatus.TERMINATED } : Session).port).2 }) := by
    rw [updateStatus_terminated_found r session_id s hs, hun]
  have hgone : alookup
      (dictPop (dictSet r.sessions session_id
        { s with status := SessionStatus.TERMINATED }) session_id).2 session_id = none :=
    alookup_dictPop_self (nodup_keys_dictSet _ _ hnd) session_id
  have hcall2 : (r.updateStatus session_id SessionStatus.TERMINATED).2.updateStatus
      session_id SessionStatus.TERMINATED
      = (false, (r.updateStatus session_id SessionStatus.TERMINATED).2) := by
    rw [hcall1]
    exact updateStatus_not_found _ _ _ hgone
  refine ⟨?_, ?_, hcall2, ?_⟩
  · rw [hcall1]
  · rw [hcall1]
    exact hgone
  · rw [hcall2, hcall1]
    exact hgone

theorem c5_terminated_idempotent_witness :
    ((keysOf regA.sessions).Nodup ∧ (alookup regA.sessions "a").isSome)
    ∧ ((regA.updateStatus "a" SessionStatus.TERMINATED).1 = true
       ∧ alookup (regA.updateStatus "a" SessionStatus.TERMINATED).2.sessions "a" = none
       ∧ (regA.updateStatus "a" SessionStatus.TERMINATED).2.updateStatus
           "a" SessionStatus.TERMINATED
           = (false, (regA.updateStatus "a" SessionStatus.TERMINATED).2)
       ∧ alookup ((regA.updateStatus "a" SessionStatus.TERMINATED).2.updateStatus
           "a" SessionStatus.TERMINATED).2.sessions "a" = none) :=
  ⟨⟨by decide, by decide⟩,
   c5_terminated_idempotent regA (by decide) "a" (by decide)⟩

/-! ## Claim C6 -/

theorem alookup_mid {α β : Type} [DecidableEq α] (l₁ l₂ : List (α × β)) (k : α) (v : β)
    (h₁ : k ∉ keysOf l₁) :
    alookup (l₁ ++ (k, v) :: l₂) k = some v := by
  rw [alookup_append, alookup_eq_none_of_not_mem_keys h₁]
  simp [alookup]

theorem verifyLoop_spec (portInUse : Nat → Bool) (todo : List (String × Session)) :
    ∀ (done : List (String × Session)) (results : List (String × SessionStatus))
      (pi : List (Nat × String)),
      (keysOf (done ++ todo)).Nodup →
      (todo.foldl (verifyStep portInUse)
          (results, { sessions := done ++ todo, portIndex := pi })).1
        = results ++ todo.filterMap (verifiedEntryResult portInUse)
      ∧ (todo.foldl (verifyStep portInUse)
          (results, { sessions := done ++ todo, portIndex := pi })).2.sessions
        = done ++ todo.filterMap (verifiedEntrySession portInUse) := by
  induction todo with
  | nil =>
    intro done results pi _h
    constructor
    · simp
    · simp
  | cons e t ih =>
    intro done results pi h
    cases e with
    | mk id s =>
      have hmid : id ∉ keysOf done ++ keysOf t ∧ (keysOf done ++ keysOf t).Nodup := by
        have h' : (keysOf done ++ id :: keysOf t).Nodup := by
          rw [keysOf_append] at h
          exact h
        exact List.nodup_cons.mp (List.nodup_middle.mp h')
      have hdone : id ∉ keysOf done := fun hc => hmid.1 (List.mem_append.mpr (Or.inl hc))
      have ht : id ∉ keysOf t := fun hc => hmid.1 (List.mem_append.mpr (Or.inr hc))
      by_cases hst : s.status = SessionStatus.UNKNOWN
      · by_cases hpu : portInUse s.port = true
        · -- port in use: status set to RUNNING in place
          have hstep : verifyStep portInUse
              (results, { sessions := done ++ (id, s) :: t, portIndex := pi }) (id, s)
              = (results ++ [(id, SessionStatus.RUNNING)],
                 { sessions := dictSet (done ++ (id, s) :: t) id
                     { s with status := SessionStatus.RUNNING },
                   portIndex := pi }) := by
            unfold verifyStep
            rw [if_pos hst, if_pos hpu]
          have hres : verifiedEntryResult portInUse (id, s)
              = some (id, SessionStatus.RUNNING) := by
            unfold verifiedEntryResult
            rw [if_pos hst, if_pos hpu]
          have hses : verifiedEntrySession portInUse (id, s)
              = some (id, { s with status := SessionStatus.RUNNING }) := by
            unfold verifiedEntrySession
            rw [if_pos hst, if_pos hpu]
          have hnd' :
              (keysOf ((done ++ [(id, { s with status := SessionStatus.RUNNING })]) ++ t)).Nodup := by
            rw [keysOf_append] at h
            simpa [keysOf, keysOf_append, List.append_assoc] using h
          have hass : done ++ (id, { s with status := SessionStatus.RUNNING }) :: t
              = (done ++ [(id, { s with status := SessionStatus.RUNNING })]) ++ t := by
            simp
          obtain ⟨ih1, ih2⟩ := ih (done ++ [(id, { s with status := SessionStatus.RUNNING })])
            (results ++ [(id, SessionStatus.RUNNING)]) pi hnd'
          rw [List.foldl_cons, hstep,
            dictSet_mid done t id s { s with status := SessionStatus.RUNNING } hdone ht, hass]
          constructor
          · rw [ih1, List.filterMap_cons, hres]
            simp
          · rw [ih2, List.filterMap_cons, hses]
            simp
        · -- port not in use: status set to TERMINATED, then unregistered
          have hstep : verifyStep portInUse
              (results, { sessions := done ++ (id, s) :: t, portIndex := pi }) (id, s)
              = (results ++ [(id, SessionStatus.TERMINATED)],
                 (Registry.unregister
                   { sessions := dictSet (done ++ (id, s) :: t) id
                       { s with status := SessionStatus.TERMINATED },
                     portIndex := pi } id).2) := by
            unfold verifyStep
            rw [if_pos hst, if_neg hpu]
          have hres : verifiedEntryResult portInUse (id, s)
              = some (id, SessionStatus.TERMINATED) := by
            unfold verifiedEntryResult
            rw [if_pos hst, if_neg hpu]
          have hses : verifiedEntrySession portInUse (id, s) = none := by
            unfold verifiedEntrySession
            rw [if_pos hst, if_neg hpu]
          have hnd' : (keysOf (done ++ t)).Nodup := by
            rw [keysOf_append]
            exact hmid.2
          obtain ⟨ih1, ih2⟩ := ih done (results ++ [(id, SessionStatus.TERMINATED)])
            ((dictPop pi ({ s with status := SessionStatus.TERMINATED } : Session).port).2)
            hnd'
          rw [List.foldl_cons, hstep,
            dictSet_mid done t id s { s with status := SessionStatus.TERMINATED } hdone ht,
            unregister_eq _ id { s with status := SessionStatus.TERMINATED }
              (alookup_mid done t id _ hdone),
            dictPop_mid done t id _ hdone]
          constructor
          · rw [ih1, List.filterMap_cons, hres]
            simp
          · rw [ih2, List.filterMap_cons, hses]
      · -- status not UNKNOWN: entry untouched
        have hstep : verifyStep portInUse
            (results, { sessions := done ++ (id, s) :: t, portIndex := pi }) (id, s)
            = (results, { sessions := done ++ (id, s) :: t, portIndex := pi }) := by
          unfold verifyStep
          rw [if_neg hst]
        have hres : verifiedEntryResult portInUse (id, s) = none := by
          unfold verifiedEntryResult
          rw [if_neg hst]
        have hses : verifiedEntrySession portInUse (id, s) = some (id, s) := by
          unfold verifiedEntrySession
          rw [if_neg hst]
        have hnd' : (keysOf ((done ++ [(id, s)]) ++ t)).Nodup := by
          rw [keysOf_append] at h
          simpa [keysOf, keysOf_append, List.append_assoc] using h
        have hass : done ++ (id, s) :: t = (done ++ [(id, s)]) ++ t := by
          simp
        obtain ⟨ih1, ih2⟩ := ih (done ++ [(id, s)]) results pi hnd'
        rw [List.foldl_cons, hstep, hass]
        constructor
        · rw [ih1, List.filterMap_cons, hres]
        · rw [ih2, List.filterMap_cons, hses]
          simp

/-- C6: `verify_sessions` examines exactly the sessions whose status is
`UNKNOWN` — each such session becomes `RUNNING` when its port is in use at
verification time and is marked `TERMINATED` and removed when it is not;
sessions with any other status are left unchanged; and the returned map
contains precisely the verified session ids with their resulting status.
Both sides are characterized by a `filterMap` over the original session
map (`verifiedEntryResult` / `verifiedEntrySession` spell out the per-entry
description just given). -/
theorem c6_verify_sessions (r : Registry) (h : (keysOf r.sessions).Nodup)
    (portInUse : Nat → Bool) :
    (r.verifySessions portInUse).1
      = r.sessions.filterMap (verifiedEntryResult portInUse)
    ∧ (r.verifySessions portInUse).2.sessions
      = r.sessions.filterMap (verifiedEntrySession portInUse) := by
  have hspec := verifyLoop_spec portInUse r.sessions [] [] r.portIndex h
  exact ⟨hspec.1, hspec.2⟩

theorem c6_verify_sessions_witness :
    (keysOf regVerify.sessions).Nodup
    ∧ ((regVerify.verifySessions (fun p => decide (p = 9222))).1
        = regVerify.sessions.filterMap (verifiedEntryResult (fun p => decide (p = 9222)))
       ∧ (regVerify.verifySessions (fun p => decide (p = 9222))).2.sessions
        = regVerify.sessions.filterMap (verifiedEntrySession (fun p => decide (p = 9222)))) :=
  ⟨by decide, c6_verify_sessions regVerify (by decide) (fun p => decide (p = 9222))⟩

/-! ## Claim C7 -/

theorem ofValue_value_origin (o : SessionOrigin) :
    SessionOrigin.ofValue o.value = some o := by
  cases o <;> rfl

theorem ofValue_value_status (st : SessionStatus) :
    SessionStatus.ofValue st.value = some st := by
  cases st <;> rfl

theorem from_dict_to_dict (s : Session) (hpath : s.app_bundle_path ≠ some "") :
    Session.from_dict s.to_dict = some s := by
  obtain ⟨sid, port, app, pid, st, sby, orig, stat, path, cv, md⟩ := s
  cases path with
  | none =>
    simp [Session.to_dict, Session.from_dict, ofValue_value_origin, ofValue_value_status,
      isoformat, fromisoformat]
  | some p =>
    have hp : ¬(p = "") := by
      intro hc
      subst hc
      exact hpath rfl
    simp [Session.to_dict, Session.from_dict, ofValue_value_origin, ofValue_value_status,
      isoformat, fromisoformat, hp]

theorem loadLoop_spec (todo : List (String × Session)) :
    ∀ acc : Registry,
      (∀ e ∈ todo, e.1 = e.2.session_id) →
      (∀ e ∈ todo, e.2.app_bundle_path ≠ some "") →
      (keysOf todo).Nodup →
      (∀ e ∈ todo, alookup acc.sessions e.1 = none) →
      ((todo.map (fun p => p.2.to_dict)).foldl loadStep acc).sessions
        = acc.sessions
          ++ todo.map (fun p => (p.1, { p.2 with status := SessionStatus.UNKNOWN })) := by
  induction todo with
  | nil =>
    intro acc _ _ _ _
    simp
  | cons e t ih =>
    intro acc hkey hpath hnd hfresh
    cases e with
    | mk id s =>
      have hid : id = s.session_id := hkey (id, s) (List.mem_cons_self _ _)
      have hp : s.app_bundle_path ≠ some "" := hpath (id, s) (List.mem_cons_self _ _)
      have hfresh0 : alookup acc.sessions s.session_id = none := by
        have hf := hfresh (id, s) (List.mem_cons_self _ _)
        rwa [hid] at hf
      have hndc := List.nodup_cons.mp hnd
      have hstep : loadStep acc (Session.to_dict s)
          = { sessions := acc.sessions
                ++ [(s.session_id, { s with status := SessionStatus.UNKNOWN })],
              portIndex := dictSet acc.portIndex s.port s.session_id } := by
        have h1 : loadStep acc (Session.to_dict s)
            = { sessions := dictSet acc.sessions s.session_id
                  { s with status := SessionStatus.UNKNOWN },
                portIndex := dictSet acc.portIndex s.port s.session_id } := by
          unfold loadStep
          rw [from_dict_to_dict s hp]
        rw [h1, dictSet_eq_append_of_none _ hfresh0]
      have hfresh' : ∀ e ∈ t,
          alookup (acc.sessions
            ++ [(s.session_id, { s with status := SessionStatus.UNKNOWN })]) e.1 = none := by
        intro e he
        have hne : e.1 ≠ s.session_id := by
          intro hc
          apply hndc.1
          have hmem : e.1 ∈ keysOf t := List.mem_map.mpr ⟨e, he, rfl⟩
          rw [hc, ← hid] at hmem
          exact hmem
        rw [alookup_append, hfresh e (List.mem_cons_of_mem _ he)]
        simp [alookup, Ne.symm hne]
      have ih' := ih { sessions := acc.sessions ++ [(s.session_id, { s with status := SessionStatus.UNKNOWN })], portIndex := dictSet acc.portIndex s.port s.session_id }
        (fun e he => hkey e (List.mem_cons_of_mem _ he))
        (fun e he => hpath e (List.mem_cons_of_mem _ he))
        hndc.2
        hfresh'
      rw [List.map_cons, List.foldl_cons, hstep, ih']
      rw [List.map_cons, hid]
      simp

/-- C7: serializing a session with `to_dict` and deserializing with
`from_dict` yields a session equal to the original in every field, and
persisting a registry then reloading it (simulated process restart)
yields the same sessions in the same order with every loaded session's
status set to `UNKNOWN`.  (The side conditions hold for every real
`Session`: ids index their own session, keys are unique, and `str` of a
`Path` is never the empty string.) -/
theorem c7_roundtrip_reload :
    (∀ s : Session, s.app_bundle_path ≠ some "" →
        Session.from_dict s.to_dict = some s)
    ∧ (∀ r : Registry,
        (keysOf r.sessions).Nodup →
        (∀ e ∈ r.sessions, e.1 = e.2.session_id) →
        (∀ e ∈ r.sessions, e.2.app_bundle_path ≠ some "") →
        (loadFromDisk (persistedSessions r)).sessions
          = r.sessions.map (fun p => (p.1, { p.2 with status := SessionStatus.UNKNOWN }))) := by
  constructor
  · exact from_dict_to_dict
  · intro r hnd hkey hpath
    unfold loadFromDisk persistedSessions
    have hspec := loadLoop_spec r.sessions Registry.empty hkey hpath hnd (fun e _ => rfl)
    simpa using hspec

theorem c7_roundtrip_reload_witness :
    (sessA.app_bundle_path ≠ some "" ∧ Session.from_dict sessA.to_dict = some sessA)
    ∧ ((keysOf regA.sessions).Nodup
       ∧ (loadFromDisk (persistedSessions regA)).sessions
           = regA.sessions.map (fun p => (p.1, { p.2 with status := SessionStatus.UNKNOWN }))) :=
  ⟨⟨by decide, c7_roundtrip_reload.1 sessA (by decide)⟩,
   ⟨by decide, c7_roundtrip_reload.2 regA (by decide) (by decide) (by decide)⟩⟩

/-! ## Claim C8 -/

theorem matchVersionAt_versionedPair (b : List Char) :
    matchVersionAt (versionedPairChars ++ b) = some "12.3.4.5" := rfl

theorem searchChromeVersion_isSome_of_matchAt (cs : List Char)
    (h : (matchVersionAt cs).isSome) : (searchChromeVersion cs).isSome := by
  cases cs with
  | nil => exact absurd h (by decide)
  | cons c rest =>
    unfold searchChromeVersion
    cases hm : matchVersionAt (c :: rest) with
    | some v => simp
    | none =>
      rw [hm] at h
      simp at h

theorem searchChromeVersion_isSome_append (a b : List Char) :
    (searchChromeVersion (a ++ versionedPairChars ++ b)).isSome := by
  induction a with
  | nil =>
    simp only [List.nil_append]
    exact searchChromeVersion_isSome_of_matchAt _
      (by rw [matchVersionAt_versionedPair]; rfl)
  | cons c a' ih =>
    show (searchChromeVersion (c :: (a' ++ versionedPairChars ++ b))).isSome
    unfold searchChromeVersion
    cases hm : matchVersionAt (c :: (a' ++ versionedPairChars ++ b)) with
    | some v => simp
    | none => simpa using ih

/-- C8: `get_chrome_version` (uncached) fails with `ChromeVersionError`
exactly when the framework binary is missing, the `strings` scan times
out, or no versioned-pair pattern match is found in the scan output; when
the output contains the substring `Chrome/12.3.4.5 Electron/` (the spec's
engine/runtime versioned pair) a version is always found, and on the
concrete scenario input the returned four-component version string is
`"12.3.4.5"`. -/
theorem c8_chrome_version_resolution :
    (∀ (frameworkExists : Bool) (scanResult : Except Unit String),
        (∃ reason, getChromeVersion none frameworkExists scanResult = Except.error reason)
          ↔ (frameworkExists = false
              ∨ (∃ u, scanResult = Except.error u)
              ∨ (∃ out, scanResult = Except.ok out ∧ searchChromeVersion out.data = none)))
    ∧ (∀ a b : List Char,
        (searchChromeVersion (a ++ versionedPairChars ++ b)).isSome)
    ∧ versionedPairChars = String.data "Chrome/12.3.4.5 Electron/"
    ∧ getChromeVersion none true (Except.ok "xx Chrome/12.3.4.5 Electron/6.7.8 yy")
        = Except.ok "12.3.4.5" := by
  refine ⟨?_, searchChromeVersion_isSome_append, by decide, by decide⟩
  intro frameworkExists scanResult
  cases frameworkExists with
  | false =>
    constructor
    · intro _
      exact Or.inl rfl
    · intro _
      exact ⟨ChromeVersionReason.frameworkNotFound, rfl⟩
  | true =>
    cases scanResult with
    | error u =>
      constructor
      · intro _
        exact Or.inr (Or.inl ⟨u, rfl⟩)
      · intro _
        exact ⟨ChromeVersionReason.timeoutReadingBinary, rfl⟩
    | ok out =>
      cases hsv : searchChromeVersion out.data with
      | some v =>
        constructor
        · rintro ⟨reason, hr⟩
          have : getChromeVersion none true (Except.ok out) = Except.ok v := by
            simp [getChromeVersion, getChromeVersionFresh, hsv]
          rw [this] at hr
          exact Except.noConfusion hr
        · rintro (hfe | ⟨u, hu⟩ | ⟨out', hout', hnone⟩)
          · exact Bool.noConfusion hfe
          · exact Except.noConfusion hu
          · injection hout' with he
            subst he
            rw [hsv] at hnone
            exact Option.noConfusion hnone
      | none =>
        constructor
        · intro _
          exact Or.inr (Or.inr ⟨out, rfl, hsv⟩)
        · intro _
          refine ⟨ChromeVersionReason.noPatternMatch, ?_⟩
          simp [getChromeVersion, getChromeVersionFresh, hsv]

/-! ## Claim C1 -/

theorem checkAndPrompt_kill (existing : Option Session) (cb : Nat → Option Session → String)
    (port : Nat) (h : cb port existing = CONFLICT_ACTION_KILL) :
    checkAndPrompt (false, existing) (some cb) port = ("kill", existing) := by
  simp only [checkAndPrompt]
  rw [h]
  rfl

/-- C1: on the port-conflict path through `check_and_prompt` into
`start_app_with_debugging`, when the existing session on the port has
origin `EXTERNAL` and the decision callback returns `KILL`, process
termination is never invoked (`kill_session` is not called) and the call
refuses: it prints the refusal and returns `None`, leaving registry and
monitor untouched — for every callback, spawn oracle and wait outcome. -/
theorem c1_external_kill_refused (app_name : String) (reg : Registry) (m : PMonitor)
    (debugging_port : Nat) (ex : Session) (cb : Nat → Option Session → String)
    (killBehavior : SigBehavior) (spawnResult : Except String ProcHandle)
    (newSessionId : String) (now : Nat) (app_bundle : String)
    (cachedChromeVersion : Option String) (portBecameInUse : Bool)
    (hext : ex.origin = SessionOrigin.EXTERNAL)
    (hkill : cb debugging_port (some ex) = CONFLICT_ACTION_KILL) :
    startAppWithDebugging app_name reg m debugging_port (false, some ex) cb killBehavior
        spawnResult newSessionId now app_bundle cachedChromeVersion portBecameInUse
      = { outcome := Except.ok none, registry := reg, monitor := m,
          killInvoked := false } := by
  unfold startAppWithDebugging
  rw [checkAndPrompt_kill (some ex) cb debugging_port hkill]
  obtain ⟨sid, prt, app, pid, st, sby, orig, stat, path, cv, md⟩ := ex
  cases orig with
  | OURS => exact SessionOrigin.noConfusion hext
  | EXTERNAL => rfl

theorem c1_external_kill_refused_witness :
    sessExt.origin = SessionOrigin.EXTERNAL
    ∧ startAppWithDebugging "Claude" regA { processes := [] } 9222 (false, some sessExt)
        (fun _ _ => CONFLICT_ACTION_KILL)
        { terminateRes := none, waitRes := WaitRes.timedOut, killRes := none,
          waitForceRes := WaitRes.timedOut }
        (Except.ok ⟨7⟩) "newid" 0 "/Applications/Claude.app" none false
      = { outcome := Except.ok none, registry := regA, monitor := { processes := [] },
          killInvoked := false } :=
  ⟨by decide,
   c1_external_kill_refused "Claude" regA { processes := [] } 9222 sessExt
     (fun _ _ => CONFLICT_ACTION_KILL)
     { terminateRes := none, waitRes := WaitRes.timedOut, killRes := none,
       waitForceRes := WaitRes.timedOut }
     (Except.ok ⟨7⟩) "newid" 0 "/Applications/Claude.app" none false (by decide) rfl⟩

/-! ## Claim C9 -/

theorem startSpawnPhase_ok (app_name : String) (debugging_port : Nat) (proc : ProcHandle)
    (reg : Registry) (m : PMonitor) (newSessionId : String) (now : Nat)
    (app_bundle : String) (ccv : Option String) (pbu killed : Bool) (reg' : Registry)
    (hreg : reg.register
        (builtSession app_name debugging_port proc newSessionId now app_bundle ccv)
      = Except.ok reg') :
    startSpawnPhase app_name debugging_port (Except.ok proc) reg m newSessionId now
        app_bundle ccv pbu killed
      = { outcome := Except.ok (some
            (builtSession app_name debugging_port proc newSessionId now app_bundle ccv)),
          registry := reg',
          monitor := { processes := dictSet m.processes newSessionId proc },
          killInvoked := killed } := by
  simp only [startSpawnPhase]
  rw [hreg]
  cases pbu <;> rfl

theorem startSpawnPhase_sessionStart (app_name : String) (debugging_port : Nat)
    (spawnResult : Except String ProcHandle) (reg : Registry) (m : PMonitor)
    (newSessionId : String) (now : Nat) (app_bundle : String) (ccv : Option String)
    (pbu killed : Bool) (a : String) (p : Nat) (msg : String)
    (h : (startSpawnPhase app_name debugging_port spawnResult reg m newSessionId now
        app_bundle ccv pbu killed).outcome
      = Except.error (StartError.sessionStart a p msg)) :
    spawnResult = Except.error msg := by
  cases spawnResult with
  | error e =>
    simp only [startSpawnPhase, Except.error.injEq, StartError.sessionStart.injEq] at h
    rw [h.2.2]
  | ok proc =>
    simp only [startSpawnPhase] at h
    cases hreg : reg.register
        (builtSession app_name debugging_port proc newSessionId now app_bundle ccv) with
    | error payload =>
      rw [hreg] at h
      simp at h
    | ok reg' =>
      rw [hreg] at h
      cases pbu <;> simp at h

/-- C9: in `start_app_with_debugging`, once the process has been spawned
and its session registered, the call returns that registered session even
when the debugging port never becomes occupied within the wait window
(only a warning differs), and a `SessionStartError` outcome occurs only
when the OS-level spawn itself failed — for every conflict-check result
and wait outcome, the error's message is exactly the spawn failure's. -/
theorem c9_spawn_and_wait_semantics (app_name : String) (reg : Registry) (m : PMonitor)
    (debugging_port : Nat) (cb : Nat → Option Session → String)
    (killBehavior : SigBehavior) (spawnResult : Except String ProcHandle)
    (newSessionId : String) (now : Nat) (app_bundle : String)
    (cachedChromeVersion : Option String) :
    (∀ proc reg',
        spawnResult = Except.ok proc →
        reg.register (builtSession app_name debugging_port proc newSessionId now
            app_bundle cachedChromeVersion) = Except.ok reg' →
        startAppWithDebugging app_name reg m debugging_port (true, none) cb killBehavior
            spawnResult newSessionId now app_bundle cachedChromeVersion false
          = { outcome := Except.ok (some (builtSession app_name debugging_port proc
                newSessionId now app_bundle cachedChromeVersion)),
              registry := reg',
              monitor := { processes := dictSet m.processes newSessionId proc },
              killInvoked := false })
    ∧ (∀ (checkResult : Bool × Option Session) (portBecameInUse : Bool)
          (a : String) (p : Nat) (msg : String),
        (startAppWithDebugging app_name reg m debugging_port checkResult cb killBehavior
            spawnResult newSessionId now app_bundle cachedChromeVersion
            portBecameInUse).outcome
          = Except.error (StartError.sessionStart a p msg) →
        spawnResult = Except.error msg) := by
  constructor
  · intro proc reg' hspawn hreg
    subst hspawn
    show startSpawnPhase app_name debugging_port (Except.ok proc) reg m newSessionId now
        app_bundle cachedChromeVersion false false = _
    exact startSpawnPhase_ok app_name debugging_port proc reg m newSessionId now
      app_bundle cachedChromeVersion false false reg' hreg
  · intro checkResult portBecameInUse a p msg houtcome
    simp only [startAppWithDebugging] at houtcome
    split at houtcome
    · exact startSpawnPhase_sessionStart _ _ _ _ _ _ _ _ _ _ _ _ _ _ houtcome
    · split at houtcome
      · simp at houtcome
      · split at houtcome
        · split at houtcome
          · split at houtcome
            · split at houtcome
              · simp at houtcome
              · exact startSpawnPhase_sessionStart _ _ _ _ _ _ _ _ _ _ _ _ _ _ houtcome
            · simp at houtcome
          · exact startSpawnPhase_sessionStart _ _ _ _ _ _ _ _ _ _ _ _ _ _ houtcome
        · split at houtcome
          · simp at houtcome
          · split at houtcome
            · simp at houtcome
            · exact startSpawnPhase_sessionStart _ _ _ _ _ _ _ _ _ _ _ _ _ _ houtcome

theorem c9_spawn_and_wait_semantics_witness :
    Registry.empty.register
        (builtSession "Claude" 9222 ⟨7⟩ "n" 0 "/Applications/Claude.app" none)
      = Except.ok { sessions := [("n", builtSession "Claude" 9222 ⟨7⟩ "n" 0 "/Applications/Claude.app" none)], portIndex := [(9222, "n")] }
    ∧ startAppWithDebugging "Claude" Registry.empty { processes := [] } 9222 (true, none)
        (fun _ _ => CONFLICT_ACTION_CANCEL)
        { terminateRes := none, waitRes := WaitRes.timedOut, killRes := none,
          waitForceRes := WaitRes.timedOut }
        (Except.ok ⟨7⟩) "n" 0 "/Applications/Claude.app" none false
      = { outcome := Except.ok (some
            (builtSession "Claude" 9222 ⟨7⟩ "n" 0 "/Applications/Claude.app" none)),
          registry := { sessions := [("n", builtSession "Claude" 9222 ⟨7⟩ "n" 0 "/Applications/Claude.app" none)], portIndex := [(9222, "n")] },
          monitor := { processes := [("n", ⟨7⟩)] },
          killInvoked := false } :=
  ⟨by decide,
   (c9_spawn_and_wait_semantics "Claude" Registry.empty { processes := [] } 9222
       (fun _ _ => CONFLICT_ACTION_CANCEL)
       { terminateRes := none, waitRes := WaitRes.timedOut, killRes := none,
         waitForceRes := WaitRes.timedOut }
       (Except.ok ⟨7⟩) "n" 0 "/Applications/Claude.app" none).1
     ⟨7⟩
     { sessions := [("n", builtSession "Claude" 9222 ⟨7⟩ "n" 0 "/Applications/Claude.app" none)], portIndex := [(9222, "n")] }
     rfl (by decide)⟩

/-! ## Claim C10 -/

/-- C10: if an `OSError` is raised while signalling the process inside
`ProcessMonitor.kill_session` — by `terminate()`, by either `wait(...)`,
or by `kill()` — the call catches it and returns `False`, and the state is
unchanged on error: the process handle remains in the monitor's tracked
map and the registry (the session's entry and status) is not modified;
untracking and the `TERMINATED` status update happen only on the success
path. -/
theorem c10_kill_oserror_state_unchanged (m : PMonitor) (reg : Registry)
    (session_id : String) (beh : SigBehavior)
    (htracked : (alookup m.processes session_id).isSome)
    (herr : beh.terminateRes.isSome
      ∨ (beh.terminateRes = none ∧ ∃ msg, beh.waitRes = WaitRes.osErr msg)
      ∨ (beh.terminateRes = none ∧ beh.waitRes = WaitRes.timedOut ∧ beh.killRes.isSome)
      ∨ (beh.terminateRes = none ∧ beh.waitRes = WaitRes.timedOut ∧ beh.killRes = none
          ∧ ∃ msg, beh.waitForceRes = WaitRes.osErr msg)) :
    m.killSession reg session_id beh = (KillResult.returned false, m, reg) := by
  obtain ⟨proc, hp⟩ := Option.isSome_iff_exists.mp htracked
  unfold PMonitor.killSession
  rw [hp]
  rcases herr with h1 | ⟨h2a, msg, h2b⟩ | ⟨h3a, h3b, h3c⟩ | ⟨h4a, h4b, h4c, msg, h4d⟩
  · obtain ⟨m1, hm1⟩ := Option.isSome_iff_exists.mp h1
    rw [hm1]
  · rw [h2a, h2b]
  · obtain ⟨m1, hm1⟩ := Option.isSome_iff_exists.mp h3c
    rw [h3a, h3b, hm1]
  · rw [h4a, h4b, h4c, h4d]

theorem c10_kill_oserror_state_unchanged_witness :
    ((alookup ({ processes := [("a", ⟨42⟩)] } : PMonitor).processes "a").isSome
      ∧ (some "EPERM" : Option String).isSome)
    ∧ PMonitor.killSession { processes := [("a", ⟨42⟩)] } regA "a"
        { terminateRes := some "EPERM", waitRes := WaitRes.finished 0, killRes := none,
          waitForceRes := WaitRes.finished 0 }
      = (KillResult.returned false, { processes := [("a", ⟨42⟩)] }, regA) :=
  ⟨⟨by decide, by decide⟩,
   c10_kill_oserror_state_unchanged { processes := [("a", ⟨42⟩)] } regA "a"
     { terminateRes := some "EPERM", waitRes := WaitRes.finished 0, killRes := none,
       waitForceRes := WaitRes.finished 0 }
     (by decide) (Or.inl (by decide))⟩

end Selectron
